import Mathlib

/-!
Verification development for the Point - Plane collision demo
(`PointPlane/main.cpp`).

The program's vector and matrix arithmetic (glm) is embedded over exact
rationals: `Vec3`/`Vec4` mirror `glm::vec3`/`glm::vec4`, and `Mat4` mirrors
`glm::mat4` in column-major layout, so `m.c3` is the translation column and
`hue[0][0]` is `hue.c0.x`.  Transcendental primitives (`glm::rotate`, which
needs sine and cosine) are taken as an abstract parameter `rot`; everything
else is computable.
-/

set_option autoImplicit false

namespace PointPlane

/-- Component type of the embedding: C `float` values modelled as exact
rationals. -/
abbrev Scalar := ℚ

/-- glm::vec3. -/
structure Vec3 where
  x : Scalar
  y : Scalar
  z : Scalar
deriving DecidableEq

/-- glm::vec4. -/
structure Vec4 where
  x : Scalar
  y : Scalar
  z : Scalar
  w : Scalar
deriving DecidableEq

/-- glm::mat4 in column-major layout: `ci` is column `i`, so the C++
expression `m[3][0]` is `m.c3.x`. -/
structure Mat4 where
  c0 : Vec4
  c1 : Vec4
  c2 : Vec4
  c3 : Vec4
deriving DecidableEq

namespace Vec3

/-- Componentwise vector addition. -/
def add (a b : Vec3) : Vec3 := ⟨a.x + b.x, a.y + b.y, a.z + b.z⟩

/-- Componentwise vector subtraction (`operator-` on glm::vec3). -/
def sub (a b : Vec3) : Vec3 := ⟨a.x - b.x, a.y - b.y, a.z - b.z⟩

/-- glm::dot on vec3. -/
def dot (a b : Vec3) : Scalar := a.x * b.x + a.y * b.y + a.z * b.z

/-- glm::cross. -/
def cross (a b : Vec3) : Vec3 :=
  ⟨a.y * b.z - a.z * b.y, a.z * b.x - a.x * b.z, a.x * b.y - a.y * b.x⟩

/-- glm::vec4(v, w): extend a vec3 by a w component. -/
def toVec4 (v : Vec3) (w : Scalar) : Vec4 := ⟨v.x, v.y, v.z, w⟩

end Vec3

/-- glm::vec3(v4): drop the w component. -/
def Vec4.toVec3 (v : Vec4) : Vec3 := ⟨v.x, v.y, v.z⟩

namespace Vec4

/-- Componentwise addition on vec4. -/
def add (a b : Vec4) : Vec4 := ⟨a.x + b.x, a.y + b.y, a.z + b.z, a.w + b.w⟩

/-- Scalar multiple of a vec4. -/
def smul (s : Scalar) (a : Vec4) : Vec4 := ⟨s * a.x, s * a.y, s * a.z, s * a.w⟩

end Vec4

namespace Mat4

/-- Matrix-vector product `m * v`: the linear combination of the columns
of `m` weighted by the components of `v` (column-major convention). -/
def mulVec (m : Mat4) (v : Vec4) : Vec4 :=
  (Vec4.smul v.x m.c0).add ((Vec4.smul v.y m.c1).add
    ((Vec4.smul v.z m.c2).add (Vec4.smul v.w m.c3)))

/-- Matrix product `a * b`, columnwise. -/
def mul (a b : Mat4) : Mat4 :=
  ⟨a.mulVec b.c0, a.mulVec b.c1, a.mulVec b.c2, a.mulVec b.c3⟩

instance : Mul Mat4 := ⟨Mat4.mul⟩

/-- glm::mat4(1.0f): the identity matrix. -/
def identity : Mat4 :=
  ⟨⟨1, 0, 0, 0⟩, ⟨0, 1, 0, 0⟩, ⟨0, 0, 1, 0⟩, ⟨0, 0, 0, 1⟩⟩

/-- glm::mat4 default constructor.  The glm shipped with this 2015 codebase
initializes a default-constructed matrix to the identity (the spec's data
model likewise states the transforms are initialized to identity). -/
def defaultCtor : Mat4 := identity

/-- A matrix whose bottom row is `(0,0,0,1)`: the shape of every model
matrix built in this program (products of glm translate/rotate/scale
transforms). -/
def isAffine (m : Mat4) : Prop :=
  m.c0.w = 0 ∧ m.c1.w = 0 ∧ m.c2.w = 0 ∧ m.c3.w = 1

instance (m : Mat4) : Decidable m.isAffine := by
  unfold isAffine; infer_instance

end Mat4

/-- Translation matrix with offset `v` in the last column, as produced by
`glm::translate(glm::mat4(1.0f), v)`. -/
def translateMat (v : Vec3) : Mat4 :=
  ⟨⟨1, 0, 0, 0⟩, ⟨0, 1, 0, 0⟩, ⟨0, 0, 1, 0⟩, ⟨v.x, v.y, v.z, 1⟩⟩

/-- glm::translate(m, v) = m * T(v): post-multiply `m` by the translation
matrix of `v`. -/
def glmTranslate (m : Mat4) (v : Vec3) : Mat4 := m * translateMat v

/-- FLT_EPSILON: the difference between 1 and the least float greater
than 1, i.e. 2^-23. -/
def FLT_EPSILON : Scalar := 1 / 2 ^ 23

/-- fabs: absolute value of a scalar. -/
def fabs (q : Scalar) : Scalar := if q < 0 then -q else q

/-- Plane collider struct: a single normal vector (main.cpp lines
154-171). -/
structure Plane where
  normal : Vec3
deriving DecidableEq

/-- TestCollision (main.cpp lines 305-329): transform the collider normal to
world space with w = 0, subtract the model matrix's translation column from
the point, and report collision when the absolute dot product is within
`FLT_EPSILON + acceptanceRange`. -/
def TestCollision (pCollider : Plane) (pModelMatrix : Mat4) (point : Vec3) : Bool :=
  let acceptanceRange : Scalar := 2 / 1000
  let worldNormal : Vec3 := (pModelMatrix.mulVec (pCollider.normal.toVec4 0)).toVec3
  let planePos : Vec3 := ⟨pModelMatrix.c3.x, pModelMatrix.c3.y, pModelMatrix.c3.z⟩
  let point' := point.sub planePos
  if fabs (Vec3.dot point' worldNormal) ≤ FLT_EPSILON + acceptanceRange then true
  else false

/-- Vertex struct (main.cpp lines 74-79): position and RGBA color. -/
structure Vertex where
  x : Scalar
  y : Scalar
  z : Scalar
  r : Scalar
  g : Scalar
  b : Scalar
  a : Scalar
deriving DecidableEq

instance : Inhabited Vertex := ⟨⟨0, 0, 0, 0, 0, 0, 0⟩⟩

/-- The two GLenum primitive topologies this program uses
(GL_TRIANGLES for the plane mesh, GL_POINTS for the point mesh). -/
inductive Primitive where
  | triangles
  | points
deriving DecidableEq

/-- Renderable mesh (main.cpp lines 82-151).  The GPU handles (VAO, VBO)
identify GPU-side objects with no CPU-observable state and are not
modelled. -/
structure Mesh where
  translation : Mat4
  rotation : Mat4
  scale : Mat4
  numVertices : Int
  vertices : List Vertex
  primitive : Primitive
deriving DecidableEq

/-- Mesh constructor (main.cpp lines 93-122).  The three `glm::mat4`
bindings at the top of the constructor body are local variables that shadow
the member fields and are never read (dead stores); the member matrices keep
the value produced by glm::mat4's default constructor, the identity
(`Mat4.defaultCtor`).  The vertex data is copied into owned storage (`memcpy`
of `numVert` records); the GL buffer calls have no CPU-observable effect. -/
def Mesh.make (numVert : Int) (vert : List Vertex) (primType : Primitive) : Mesh :=
  { translation := Mat4.defaultCtor
    rotation := Mat4.defaultCtor
    scale := Mat4.defaultCtor
    numVertices := numVert
    vertices := vert.take numVert.toNat
    primitive := primType }

/-- Mesh::GetModelMatrix (main.cpp lines 131-134):
`return translation * rotation * scale;`. -/
def Mesh.GetModelMatrix (m : Mesh) : Mat4 :=
  m.translation * m.rotation * m.scale

/-- float movementSpeed = 0.02f (main.cpp line 180). -/
def movementSpeed : Scalar := 2 / 100

/-- float rotationSpeed = 0.01f (main.cpp line 181). -/
def rotationSpeed : Scalar := 1 / 100

/-- Which of the two global meshes the `selectedShape` pointer refers to. -/
inductive Selected where
  | planeMesh
  | pointMesh
deriving DecidableEq

/-- The global mutable state that the input callbacks and the update step
read and write (main.cpp lines 61-185): the two meshes, the selection
pointer, the plane collider, the view-projection and hue matrices, and the
mouse-tracking state. -/
structure AppState where
  plane : Mesh
  point : Mesh
  selectedShape : Selected
  planeCollider : Plane
  VP : Mat4
  hue : Mat4
  isMousePressed : Bool
  prevMouseX : Scalar
  prevMouseY : Scalar
deriving DecidableEq

/-- Dereference the `selectedShape` pointer. -/
def AppState.selected (st : AppState) : Mesh :=
  match st.selectedShape with
  | Selected.planeMesh => st.plane
  | Selected.pointMesh => st.point

/-- Write through the `selectedShape` pointer, leaving the other mesh
alone. -/
def AppState.modifySelected (st : AppState) (f : Mesh → Mesh) : AppState :=
  match st.selectedShape with
  | Selected.planeMesh => { st with plane := f st.plane }
  | Selected.pointMesh => { st with point := f st.point }

/-- The GLFW keys this program reacts to; `other` stands for every other
key code. -/
inductive Key where
  | space
  | w
  | a
  | s
  | d
  | leftControl
  | leftShift
  | other
deriving DecidableEq

/-- GLFW key actions. -/
inductive KeyAction where
  | press
  | repeated
  | release
deriving DecidableEq

/-- key_callback (main.cpp lines 403-426).  On GLFW_PRESS or GLFW_REPEAT:
Space swaps the selected mesh between plane and point, and each movement key
left-multiplies the selected mesh's translation by
`glm::translate(glm::mat4(1.0f), delta)` with the key's delta vector. -/
def key_callback (key : Key) (action : KeyAction) (st : AppState) : AppState :=
  if action = KeyAction.press ∨ action = KeyAction.repeated then
    let st := if key = Key.space then
        { st with selectedShape :=
            match st.selectedShape with
            | Selected.planeMesh => Selected.pointMesh
            | Selected.pointMesh => Selected.planeMesh }
      else st
    let st := if key = Key.w then
        st.modifySelected fun m =>
          { m with translation :=
              glmTranslate Mat4.identity ⟨0, movementSpeed, 0⟩ * m.translation }
      else st
    let st := if key = Key.a then
        st.modifySelected fun m =>
          { m with translation :=
              glmTranslate Mat4.identity ⟨-movementSpeed, 0, 0⟩ * m.translation }
      else st
    let st := if key = Key.s then
        st.modifySelected fun m =>
          { m with translation :=
              glmTranslate Mat4.identity ⟨0, -movementSpeed, 0⟩ * m.translation }
      else st
    let st := if key = Key.d then
        st.modifySelected fun m =>
          { m with translation :=
              glmTranslate Mat4.identity ⟨movementSpeed, 0, 0⟩ * m.translation }
      else st
    let st := if key = Key.leftControl then
        st.modifySelected fun m =>
          { m with translation :=
              glmTranslate Mat4.identity ⟨0, 0, movementSpeed⟩ * m.translation }
      else st
    let st := if key = Key.leftShift then
        st.modifySelected fun m =>
          { m with translation :=
              glmTranslate Mat4.identity ⟨0, 0, -movementSpeed⟩ * m.translation }
      else st
    st
  else st

/-- update (main.cpp lines 332-378), one physics timestep.  `glmRotate` is
the primitive `glm::rotate(glm::mat4(1.0f), angle, axis)`; it needs sine and
cosine, so the embedding takes it as a parameter.  `currentMouseX` and
`currentMouseY` are what glfwGetCursorPos reports during this step.  The
local `yaw` and `pitch` matrices are default-constructed `glm::mat4`s, hence
the identity whenever the corresponding mouse delta is zero.  After the
optional drag-rotation, the collision test runs against the plane's model
matrix and the point's translation column, and its outcome is written to
`hue[0][0]`. -/
def update (glmRotate : Scalar → Vec3 → Mat4)
    (currentMouseX currentMouseY : Scalar) (st : AppState) : AppState :=
  let st1 :=
    if st.isMousePressed then
      let deltaMouseX := currentMouseX - st.prevMouseX
      let deltaMouseY := currentMouseY - st.prevMouseY
      let yaw := if deltaMouseX ≠ 0 then
          glmRotate (deltaMouseX * rotationSpeed) ⟨0, 1, 0⟩
        else Mat4.defaultCtor
      let pitch := if deltaMouseY ≠ 0 then
          glmRotate (deltaMouseY * rotationSpeed) ⟨1, 0, 0⟩
        else Mat4.defaultCtor
      let st' := st.modifySelected fun m => { m with rotation := yaw * pitch * m.rotation }
      { st' with prevMouseX := currentMouseX, prevMouseY := currentMouseY }
    else st
  if TestCollision st1.planeCollider st1.plane.GetModelMatrix
      ⟨st1.point.translation.c3.x, st1.point.translation.c3.y, st1.point.translation.c3.z⟩ then
    { st1 with hue := { st1.hue with c0 := { st1.hue.c0 with x := 1 } } }
  else
    { st1 with hue := { st1.hue with c0 := { st1.hue.c0 with x := 0 } } }

/-- Model of the file system seen by readShader: the content of a file when
it can be opened for reading, `none` when it cannot. -/
def FileSystem := String → Option String

/-- Result of readShader: the returned string together with the diagnostic
lines printed to the console during the call. -/
structure ReadResult where
  returned : String
  console : List String
deriving DecidableEq

/-- readShader (main.cpp lines 197-217): if the file cannot be opened, print
a diagnostic naming the file and return the empty string; otherwise read the
whole file into the result and return it verbatim. -/
def readShader (fs : FileSystem) (fileName : String) : ReadResult :=
  match fs fileName with
  | Option.none => ⟨"", ["Can\x27t read file: " ++ fileName]⟩
  | Option.some content => ⟨content, []⟩

/-- The six authored plane vertices (main.cpp lines 466-471), all colored
r=1, g=0, b=1, a=1. -/
def planeVerts : List Vertex :=
  [⟨0, 1, 1, 1, 0, 1, 1⟩, ⟨0, -1, 1, 1, 0, 1, 1⟩, ⟨0, -1, -1, 1, 0, 1, 1⟩,
   ⟨0, -1, -1, 1, 0, 1, 1⟩, ⟨0, 1, -1, 1, 0, 1, 1⟩, ⟨0, 1, 1, 1, 0, 1, 1⟩]

/-- edge1 (main.cpp line 493): planeVerts[0] minus planeVerts[1],
componentwise on the position fields. -/
def edge1 : Vec3 :=
  ⟨(planeVerts.getD 0 default).x - (planeVerts.getD 1 default).x,
   (planeVerts.getD 0 default).y - (planeVerts.getD 1 default).y,
   (planeVerts.getD 0 default).z - (planeVerts.getD 1 default).z⟩

/-- edge2 (main.cpp line 494): planeVerts[1] minus planeVerts[2],
componentwise on the position fields. -/
def edge2 : Vec3 :=
  ⟨(planeVerts.getD 1 default).x - (planeVerts.getD 2 default).x,
   (planeVerts.getD 1 default).y - (planeVerts.getD 2 default).y,
   (planeVerts.getD 1 default).z - (planeVerts.getD 2 default).z⟩

/-- glm::normalize over the exact-rational embedding: divide by the square
root of the squared length.  `Rat.sqrt` is exact on the perfect-square
lengths that arise in this program. -/
def glmNormalize (v : Vec3) : Vec3 :=
  let len := Rat.sqrt (v.x * v.x + v.y * v.y + v.z * v.z)
  ⟨v.x / len, v.y / len, v.z / len⟩

/-- The collider normal built in main (line 496): the normalized cross
product of the two plane edges. -/
def sceneNormal : Vec3 := glmNormalize (Vec3.cross edge1 edge2)

/-- planeCollider = new Plane(normal) (main.cpp line 498). -/
def planeColliderInit : Plane := ⟨sceneNormal⟩

/-- The quantity whose absolute value TestCollision compares against the
tolerance: the dot product of the point relative to the model matrix's
translation column with the world-space normal (the model matrix applied to
the collider normal with w = 0). -/
def signedDist (pCollider : Plane) (pModelMatrix : Mat4) (point : Vec3) : Scalar :=
  Vec3.dot (point.sub ⟨pModelMatrix.c3.x, pModelMatrix.c3.y, pModelMatrix.c3.z⟩)
    ((pModelMatrix.mulVec (pCollider.normal.toVec4 0)).toVec3)

/-- The single point vertex (main.cpp line 479), colored r=1, g=1, b=0,
a=1. -/
def pointVert : Vertex := ⟨0, 0, 0, 1, 1, 0, 1⟩

/-- A concrete application state used to exercise the theorems below on
explicit inputs: the two meshes as constructed in main, the derived plane
collider, plane selected, mouse not pressed.  (The real view-projection
matrix involves a perspective tangent; the identity stands in for it here,
as no property below depends on its value.) -/
def sampleState : AppState :=
  { plane := Mesh.make 6 planeVerts Primitive.triangles
    point := Mesh.make 1 [pointVert] Primitive.points
    selectedShape := Selected.planeMesh
    planeCollider := planeColliderInit
    VP := Mat4.identity
    hue := Mat4.identity
    isMousePressed := false
    prevMouseX := 0
    prevMouseY := 0 }

/-- The sample state with the left mouse button held down. -/
def samplePressed : AppState :=
  { sampleState with isMousePressed := true }

/-- A concrete stand-in for the glm::rotate primitive, used only to exercise
theorems that hold for every rotation primitive. -/
def constRotate : Scalar → Vec3 → Mat4 := fun _ _ => Mat4.identity

section Helpers

/-- Unfold the Mul instance on Mat4. -/
theorem Mat4.mul_def (a b : Mat4) : a * b = a.mul b := rfl

/-- Matrix-vector product distributes over the matrix product: applying
`a * b` is applying `b` and then `a`. -/
theorem Mat4.mulVec_mul (a b : Mat4) (v : Vec4) :
    (a * b).mulVec v = a.mulVec (b.mulVec v) := by
  obtain ⟨⟨a00, a01, a02, a03⟩, ⟨a10, a11, a12, a13⟩,
    ⟨a20, a21, a22, a23⟩, ⟨a30, a31, a32, a33⟩⟩ := a
  obtain ⟨⟨b00, b01, b02, b03⟩, ⟨b10, b11, b12, b13⟩,
    ⟨b20, b21, b22, b23⟩, ⟨b30, b31, b32, b33⟩⟩ := b
  obtain ⟨vx, vy, vz, vw⟩ := v
  simp only [Mat4.mul_def, Mat4.mul, Mat4.mulVec, Vec4.smul, Vec4.add, Vec4.mk.injEq]
  refine ⟨by ring, by ring, by ring, by ring⟩

/-- glm::translate(glm::mat4(1.0f), v) is the plain translation matrix of
`v`. -/
theorem glmTranslate_identity (v : Vec3) :
    glmTranslate Mat4.identity v = translateMat v := by
  obtain ⟨x, y, z⟩ := v
  simp only [glmTranslate, Mat4.mul_def, Mat4.mul, Mat4.mulVec, Vec4.smul, Vec4.add,
    Mat4.identity, translateMat, Mat4.mk.injEq, Vec4.mk.injEq]
  norm_num

/-- TestCollision in terms of `signedDist`. -/
theorem TestCollision_eq (pCollider : Plane) (pModelMatrix : Mat4) (point : Vec3) :
    TestCollision pCollider pModelMatrix point =
      if fabs (signedDist pCollider pModelMatrix point) ≤ FLT_EPSILON + 2 / 1000
      then true else false := rfl

/-- modifySelected leaves the selection pointer alone. -/
theorem selectedShape_modifySelected (st : AppState) (f : Mesh → Mesh) :
    (st.modifySelected f).selectedShape = st.selectedShape := by
  cases h : st.selectedShape <;> simp [AppState.modifySelected, h]

/-- Reading the selected mesh after writing it through the pointer. -/
theorem selected_modifySelected (st : AppState) (f : Mesh → Mesh) :
    (st.modifySelected f).selected = f st.selected := by
  cases h : st.selectedShape <;>
    simp [AppState.modifySelected, AppState.selected, h]

/-- The plane field distributes over an if-then-else of states. -/
theorem AppState.plane_ite (c : Prop) [Decidable c] (A B : AppState) :
    (if c then A else B).plane = if c then A.plane else B.plane := by
  split <;> rfl

/-- The point field distributes over an if-then-else of states. -/
theorem AppState.point_ite (c : Prop) [Decidable c] (A B : AppState) :
    (if c then A else B).point = if c then A.point else B.point := by
  split <;> rfl

/-- The collider field distributes over an if-then-else of states. -/
theorem AppState.planeCollider_ite (c : Prop) [Decidable c] (A B : AppState) :
    (if c then A else B).planeCollider =
      if c then A.planeCollider else B.planeCollider := by
  split <;> rfl

/-- The VP field distributes over an if-then-else of states. -/
theorem AppState.VP_ite (c : Prop) [Decidable c] (A B : AppState) :
    (if c then A else B).VP = if c then A.VP else B.VP := by
  split <;> rfl

/-- The hue field distributes over an if-then-else of states. -/
theorem AppState.hue_ite (c : Prop) [Decidable c] (A B : AppState) :
    (if c then A else B).hue = if c then A.hue else B.hue := by
  split <;> rfl

/-- The selected mesh distributes over an if-then-else of states. -/
theorem AppState.selected_ite (c : Prop) [Decidable c] (A B : AppState) :
    (if c then A else B).selected = if c then A.selected else B.selected := by
  split <;> rfl

/-- The translation field distributes over an if-then-else of meshes. -/
theorem Mesh.translation_ite (c : Prop) [Decidable c] (A B : Mesh) :
    (if c then A else B).translation = if c then A.translation else B.translation := by
  split <;> rfl

/-- The rotation field distributes over an if-then-else of meshes. -/
theorem Mesh.rotation_ite (c : Prop) [Decidable c] (A B : Mesh) :
    (if c then A else B).rotation = if c then A.rotation else B.rotation := by
  split <;> rfl

/-- The scale field distributes over an if-then-else of meshes. -/
theorem Mesh.scale_ite (c : Prop) [Decidable c] (A B : Mesh) :
    (if c then A else B).scale = if c then A.scale else B.scale := by
  split <;> rfl

/-- Column 0 distributes over an if-then-else of matrices. -/
theorem Mat4.c0_ite (c : Prop) [Decidable c] (A B : Mat4) :
    (if c then A else B).c0 = if c then A.c0 else B.c0 := by
  split <;> rfl

/-- Column 1 distributes over an if-then-else of matrices. -/
theorem Mat4.c1_ite (c : Prop) [Decidable c] (A B : Mat4) :
    (if c then A else B).c1 = if c then A.c1 else B.c1 := by
  split <;> rfl

/-- Column 2 distributes over an if-then-else of matrices. -/
theorem Mat4.c2_ite (c : Prop) [Decidable c] (A B : Mat4) :
    (if c then A else B).c2 = if c then A.c2 else B.c2 := by
  split <;> rfl

/-- Column 3 distributes over an if-then-else of matrices. -/
theorem Mat4.c3_ite (c : Prop) [Decidable c] (A B : Mat4) :
    (if c then A else B).c3 = if c then A.c3 else B.c3 := by
  split <;> rfl

/-- The x component distributes over an if-then-else of vectors. -/
theorem Vec4.x_ite (c : Prop) [Decidable c] (A B : Vec4) :
    (if c then A else B).x = if c then A.x else B.x := by
  split <;> rfl

/-- The y component distributes over an if-then-else of vectors. -/
theorem Vec4.y_ite (c : Prop) [Decidable c] (A B : Vec4) :
    (if c then A else B).y = if c then A.y else B.y := by
  split <;> rfl

/-- The z component distributes over an if-then-else of vectors. -/
theorem Vec4.z_ite (c : Prop) [Decidable c] (A B : Vec4) :
    (if c then A else B).z = if c then A.z else B.z := by
  split <;> rfl

/-- The w component distributes over an if-then-else of vectors. -/
theorem Vec4.w_ite (c : Prop) [Decidable c] (A B : Vec4) :
    (if c then A else B).w = if c then A.w else B.w := by
  split <;> rfl

end Helpers

/-- C1: TestCollision returns true if and only if the absolute value of the
dot product of (point minus the translation column of the model matrix) with
the world-space normal (the model matrix applied to the collider normal with
w = 0) is at most FLT_EPSILON + 0.002; in particular, against a plane with
normal (1,0,0) at the world origin, the points at signed distances 0, 0.002
and -0.002 along X collide, and the point at 0.003 does not. -/
theorem C1_testCollision_threshold :
    (∀ (pCollider : Plane) (pModelMatrix : Mat4) (point : Vec3),
      TestCollision pCollider pModelMatrix point = true ↔
        fabs (signedDist pCollider pModelMatrix point) ≤ FLT_EPSILON + 2 / 1000) ∧
    TestCollision ⟨⟨1, 0, 0⟩⟩ Mat4.identity ⟨0, 0, 0⟩ = true ∧
    TestCollision ⟨⟨1, 0, 0⟩⟩ Mat4.identity ⟨2 / 1000, 0, 0⟩ = true ∧
    TestCollision ⟨⟨1, 0, 0⟩⟩ Mat4.identity ⟨-2 / 1000, 0, 0⟩ = true ∧
    TestCollision ⟨⟨1, 0, 0⟩⟩ Mat4.identity ⟨3 / 1000, 0, 0⟩ = false := by
  refine ⟨fun pCollider pModelMatrix point => ?_, ?_, ?_, ?_, ?_⟩
  · rw [TestCollision_eq]
    split
    · next h => simp [h]
    · next h => simp [h]
  all_goals
    norm_num [TestCollision, Mat4.identity, Mat4.mulVec, Vec4.smul, Vec4.add,
      Vec3.toVec4, Vec4.toVec3, Vec3.sub, Vec3.dot, fabs, FLT_EPSILON]

/-- C2: pre-translating the plane's model matrix by (t,0,0) (left-multiplying
by the translation matrix, as every translation in this program is applied)
and translating the point by the same (t,0,0) leaves TestCollision
unchanged, for any model matrix; model matrices in this program are affine
(bottom row (0,0,0,1)), which the hypothesis records. -/
theorem C2_translation_invariance (pCollider : Plane) (pModelMatrix : Mat4)
    (point : Vec3) (t : Scalar) (hM : pModelMatrix.isAffine) :
    TestCollision pCollider (translateMat ⟨t, 0, 0⟩ * pModelMatrix)
        (point.add ⟨t, 0, 0⟩) =
      TestCollision pCollider pModelMatrix point := by
  rw [TestCollision_eq, TestCollision_eq]
  have hdist : signedDist pCollider (translateMat ⟨t, 0, 0⟩ * pModelMatrix)
      (point.add ⟨t, 0, 0⟩) = signedDist pCollider pModelMatrix point := by
    obtain ⟨⟨a00, a01, a02, a03⟩, ⟨a10, a11, a12, a13⟩,
      ⟨a20, a21, a22, a23⟩, ⟨a30, a31, a32, a33⟩⟩ := pModelMatrix
    unfold Mat4.isAffine at hM
    obtain ⟨h0, h1, h2, h3⟩ := hM
    simp only at h0 h1 h2 h3
    subst h0 h1 h2 h3
    simp only [signedDist, translateMat, Mat4.mul_def, Mat4.mul, Mat4.mulVec,
      Vec4.smul, Vec4.add, Vec3.toVec4, Vec4.toVec3, Vec3.sub, Vec3.add, Vec3.dot]
    ring
  rw [hdist]

/-- C2 witness: translating the identity model matrix and the origin point
by (1,0,0) leaves the collision verdict unchanged. -/
theorem C2_translation_invariance_witness :
    Mat4.isAffine Mat4.identity ∧
    TestCollision ⟨⟨1, 0, 0⟩⟩ (translateMat ⟨1, 0, 0⟩ * Mat4.identity)
        (Vec3.add ⟨0, 0, 0⟩ ⟨1, 0, 0⟩) =
      TestCollision ⟨⟨1, 0, 0⟩⟩ Mat4.identity ⟨0, 0, 0⟩ :=
  ⟨⟨rfl, rfl, rfl, rfl⟩,
    C2_translation_invariance ⟨⟨1, 0, 0⟩⟩ Mat4.identity ⟨0, 0, 0⟩ 1
      ⟨rfl, rfl, rfl, rfl⟩⟩

/-- C3: whenever the point's world position equals the translation column of
the plane's model matrix, TestCollision reports a collision — for every
model matrix, hence in particular for every rotation applied to it. -/
theorem C3_point_at_plane_position (pCollider : Plane) (pModelMatrix : Mat4) :
    TestCollision pCollider pModelMatrix
      ⟨pModelMatrix.c3.x, pModelMatrix.c3.y, pModelMatrix.c3.z⟩ = true := by
  rw [TestCollision_eq]
  have h0 : signedDist pCollider pModelMatrix
      ⟨pModelMatrix.c3.x, pModelMatrix.c3.y, pModelMatrix.c3.z⟩ = 0 := by
    simp [signedDist, Vec3.sub, Vec3.dot]
  rw [h0]
  norm_num [fabs, FLT_EPSILON]

/-- C4: GetModelMatrix returns exactly translation * rotation * scale, and
applying the result to any vector applies scale first, then rotation, then
translation (right-to-left). -/
theorem C4_model_matrix_composition (m : Mesh) :
    m.GetModelMatrix = m.translation * m.rotation * m.scale ∧
    ∀ v : Vec4, m.GetModelMatrix.mulVec v =
      m.translation.mulVec (m.rotation.mulVec (m.scale.mulVec v)) := by
  refine ⟨rfl, fun v => ?_⟩
  rw [Mesh.GetModelMatrix, Mat4.mulVec_mul, Mat4.mulVec_mul]

/-- C5: after the Mesh constructor runs, the translation, rotation and scale
member matrices each equal the identity (the constructor's three local
matrix bindings shadow the members, which keep glm::mat4's
default-constructed identity value). -/
theorem C5_mesh_ctor_identity (numVert : Int) (vert : List Vertex)
    (primType : Primitive) :
    (Mesh.make numVert vert primType).translation = Mat4.identity ∧
    (Mesh.make numVert vert primType).rotation = Mat4.identity ∧
    (Mesh.make numVert vert primType).scale = Mat4.identity :=
  ⟨rfl, rfl, rfl⟩

/-- C8: when the file cannot be opened, readShader prints a diagnostic
naming the path and returns the empty string (it returns normally: no
exception, no abort); when it can, it returns the whole content verbatim
with no diagnostic. -/
theorem C8_readShader_error_path (fs : FileSystem) (fileName : String) :
    (fs fileName = Option.none →
      readShader fs fileName = ⟨"", ["Can\x27t read file: " ++ fileName]⟩) ∧
    (∀ content : String, fs fileName = Option.some content →
      readShader fs fileName = ⟨content, []⟩) := by
  constructor
  · intro h; simp [readShader, h]
  · intro content h; simp [readShader, h]

/-- C8 witness: on a file system with no files, reading a shader source
yields the empty string and the diagnostic; on one holding the file, the
content comes back verbatim. -/
theorem C8_readShader_error_path_witness :
    ((fun _ => Option.none : FileSystem) "a.glsl" = Option.none ∧
      readShader (fun _ => Option.none) "a.glsl" =
        ⟨"", ["Can\x27t read file: " ++ "a.glsl"]⟩) ∧
    ((fun _ => Option.some "src" : FileSystem) "a.glsl" = Option.some "src" ∧
      readShader (fun _ => Option.some "src") "a.glsl" = ⟨"src", []⟩) :=
  ⟨⟨rfl, (C8_readShader_error_path (fun _ => Option.none) "a.glsl").1 rfl⟩,
    ⟨rfl, (C8_readShader_error_path (fun _ => Option.some "src") "a.glsl").2 "src" rfl⟩⟩

/-- C9: the collider normal derived in main from edge1 = vertex0 - vertex1
and edge2 = vertex1 - vertex2 of the authored plane vertices is exactly
(1,0,0) — the positive-sign instance of (±1,0,0) — and has unit length. -/
theorem C9_plane_normal_derivation :
    planeColliderInit.normal = ⟨1, 0, 0⟩ ∧
    Vec3.dot planeColliderInit.normal planeColliderInit.normal = 1 := by
  constructor <;>
    norm_num [planeColliderInit, sceneNormal, glmNormalize, edge1, edge2,
      planeVerts, Vec3.cross, Vec3.dot, Rat.sqrt]

/-- C6: on a key press or key repeat, each translation key left-multiplies
the selected mesh's translation by the translation matrix of its delta —
(0, 0.02, 0) for W, (0, -0.02, 0) for S, (-0.02, 0, 0) for A, (0.02, 0, 0)
for D, (0, 0, 0.02) for left control, (0, 0, -0.02) for left shift — and, in
particular, starting from the identity translation, pressing D then W leaves
the selected translation with position column (0.02, 0.02, 0). -/
theorem C6_key_translation (st : AppState) (act : KeyAction)
    (hact : act = KeyAction.press ∨ act = KeyAction.repeated) :
    (key_callback Key.w act st = st.modifySelected fun m =>
      { m with translation := translateMat ⟨0, movementSpeed, 0⟩ * m.translation }) ∧
    (key_callback Key.s act st = st.modifySelected fun m =>
      { m with translation := translateMat ⟨0, -movementSpeed, 0⟩ * m.translation }) ∧
    (key_callback Key.a act st = st.modifySelected fun m =>
      { m with translation := translateMat ⟨-movementSpeed, 0, 0⟩ * m.translation }) ∧
    (key_callback Key.d act st = st.modifySelected fun m =>
      { m with translation := translateMat ⟨movementSpeed, 0, 0⟩ * m.translation }) ∧
    (key_callback Key.leftControl act st = st.modifySelected fun m =>
      { m with translation := translateMat ⟨0, 0, movementSpeed⟩ * m.translation }) ∧
    (key_callback Key.leftShift act st = st.modifySelected fun m =>
      { m with translation := translateMat ⟨0, 0, -movementSpeed⟩ * m.translation }) ∧
    (st.selected.translation = Mat4.identity →
      (key_callback Key.w act (key_callback Key.d act st)).selected.translation.c3 =
        ⟨2 / 100, 2 / 100, 0, 1⟩) := by
  have hw : ∀ s : AppState, key_callback Key.w act s = s.modifySelected fun m =>
      { m with translation := translateMat ⟨0, movementSpeed, 0⟩ * m.translation } := by
    intro s; rcases hact with h | h <;> subst h <;>
      simp [key_callback, glmTranslate_identity]
  have hd : ∀ s : AppState, key_callback Key.d act s = s.modifySelected fun m =>
      { m with translation := translateMat ⟨movementSpeed, 0, 0⟩ * m.translation } := by
    intro s; rcases hact with h | h <;> subst h <;>
      simp [key_callback, glmTranslate_identity]
  refine ⟨hw st, ?_, ?_, hd st, ?_, ?_, ?_⟩
  · rcases hact with h | h <;> subst h <;> simp [key_callback, glmTranslate_identity]
  · rcases hact with h | h <;> subst h <;> simp [key_callback, glmTranslate_identity]
  · rcases hact with h | h <;> subst h <;> simp [key_callback, glmTranslate_identity]
  · rcases hact with h | h <;> subst h <;> simp [key_callback, glmTranslate_identity]
  · intro hid
    rw [hd st, hw, selected_modifySelected, selected_modifySelected]
    simp only [hid]
    norm_num [translateMat, movementSpeed, Mat4.mul_def, Mat4.mul, Mat4.mulVec,
      Vec4.smul, Vec4.add, Mat4.identity, Vec4.mk.injEq]

/-- C6 witness: in the sample scene (plane selected, identity translation),
pressing D then W leaves the selected translation's position column at
(0.02, 0.02, 0). -/
theorem C6_key_translation_witness :
    (KeyAction.press = KeyAction.press ∨ KeyAction.press = KeyAction.repeated) ∧
    sampleState.selected.translation = Mat4.identity ∧
    (key_callback Key.w KeyAction.press
        (key_callback Key.d KeyAction.press sampleState)).selected.translation.c3 =
      ⟨2 / 100, 2 / 100, 0, 1⟩ :=
  ⟨Or.inl rfl, rfl,
    (C6_key_translation sampleState KeyAction.press (Or.inl rfl)).2.2.2.2.2.2 rfl⟩

/-- C7: when the mouse-pressed flag is false, an update step leaves both
meshes' rotations unchanged regardless of cursor motion; when it is true,
the selected mesh's rotation becomes yaw * pitch * old, where yaw is the glm
rotation by (deltaX * 0.01) about world Y when the horizontal cursor delta
is nonzero and the identity otherwise, and pitch likewise by
(deltaY * 0.01) about world X for the vertical delta. -/
theorem C7_update_drag_rotation (glmRotate : Scalar → Vec3 → Mat4)
    (currentMouseX currentMouseY : Scalar) (st : AppState) :
    (st.isMousePressed = false →
      (update glmRotate currentMouseX currentMouseY st).plane.rotation =
          st.plane.rotation ∧
        (update glmRotate currentMouseX currentMouseY st).point.rotation =
          st.point.rotation) ∧
    (st.isMousePressed = true →
      (update glmRotate currentMouseX currentMouseY st).selected.rotation =
        (if currentMouseX - st.prevMouseX ≠ 0 then
            glmRotate ((currentMouseX - st.prevMouseX) * rotationSpeed) ⟨0, 1, 0⟩
          else Mat4.identity) *
          (if currentMouseY - st.prevMouseY ≠ 0 then
            glmRotate ((currentMouseY - st.prevMouseY) * rotationSpeed) ⟨1, 0, 0⟩
          else Mat4.identity) * st.selected.rotation) := by
  constructor
  · intro h
    simp only [update, h, Bool.false_eq_true, if_false, AppState.plane_ite,
      AppState.point_ite, Mesh.rotation_ite, ite_self]
    exact ⟨trivial, trivial⟩
  · intro h
    cases hsel : st.selectedShape <;>
      simp only [update, h, if_true, AppState.modifySelected, hsel,
        AppState.selected_ite, Mesh.rotation_ite] <;>
      simp only [AppState.selected, hsel, Mat4.defaultCtor, ite_self]

/-- C7 witness: an update of the sample scene with the mouse up leaves both
rotations unchanged; with the mouse down and the cursor at (3,4), the
selected rotation picks up the yaw and pitch factors. -/
theorem C7_update_drag_rotation_witness :
    (sampleState.isMousePressed = false ∧
      (update constRotate 3 4 sampleState).plane.rotation =
          sampleState.plane.rotation ∧
        (update constRotate 3 4 sampleState).point.rotation =
          sampleState.point.rotation) ∧
    (samplePressed.isMousePressed = true ∧
      (update constRotate 3 4 samplePressed).selected.rotation =
        (if (3 : Scalar) - samplePressed.prevMouseX ≠ 0 then
            constRotate (((3 : Scalar) - samplePressed.prevMouseX) * rotationSpeed)
              ⟨0, 1, 0⟩
          else Mat4.identity) *
          (if (4 : Scalar) - samplePressed.prevMouseY ≠ 0 then
            constRotate (((4 : Scalar) - samplePressed.prevMouseY) * rotationSpeed)
              ⟨1, 0, 0⟩
          else Mat4.identity) * samplePressed.selected.rotation) :=
  ⟨⟨rfl, (C7_update_drag_rotation constRotate 3 4 sampleState).1 rfl⟩,
    ⟨rfl, (C7_update_drag_rotation constRotate 3 4 samplePressed).2 rfl⟩⟩

/-- C10: an update step never changes either mesh's translation or scale
matrices, the plane collider, or the view-projection matrix, and its
collision branch writes exactly the [0][0] element of the hue matrix — 1
when TestCollision reports a collision for the post-update plane model
matrix and point position, 0 otherwise — leaving the other fifteen hue
entries unchanged. -/
theorem C10_update_frame_effect (glmRotate : Scalar → Vec3 → Mat4)
    (currentMouseX currentMouseY : Scalar) (st : AppState) :
    (update glmRotate currentMouseX currentMouseY st).plane.translation =
        st.plane.translation ∧
    (update glmRotate currentMouseX currentMouseY st).plane.scale = st.plane.scale ∧
    (update glmRotate currentMouseX currentMouseY st).point.translation =
        st.point.translation ∧
    (update glmRotate currentMouseX currentMouseY st).point.scale = st.point.scale ∧
    (update glmRotate currentMouseX currentMouseY st).planeCollider =
        st.planeCollider ∧
    (update glmRotate currentMouseX currentMouseY st).VP = st.VP ∧
    ((update glmRotate currentMouseX currentMouseY st).hue.c0.x =
      if TestCollision (update glmRotate currentMouseX currentMouseY st).planeCollider
          (update glmRotate currentMouseX currentMouseY st).plane.GetModelMatrix
          ⟨(update glmRotate currentMouseX currentMouseY st).point.translation.c3.x,
            (update glmRotate currentMouseX currentMouseY st).point.translation.c3.y,
            (update glmRotate currentMouseX currentMouseY st).point.translation.c3.z⟩
      then 1 else 0) ∧
    (update glmRotate currentMouseX currentMouseY st).hue.c0.y = st.hue.c0.y ∧
    (update glmRotate currentMouseX currentMouseY st).hue.c0.z = st.hue.c0.z ∧
    (update glmRotate currentMouseX currentMouseY st).hue.c0.w = st.hue.c0.w ∧
    (update glmRotate currentMouseX currentMouseY st).hue.c1 = st.hue.c1 ∧
    (update glmRotate currentMouseX currentMouseY st).hue.c2 = st.hue.c2 ∧
    (update glmRotate currentMouseX currentMouseY st).hue.c3 = st.hue.c3 := by
  rcases hmp : st.isMousePressed <;> cases hsel : st.selectedShape <;>
    simp only [update, hmp, hsel, AppState.modifySelected, Bool.false_eq_true,
      if_false, if_true, AppState.plane_ite, AppState.point_ite,
      AppState.planeCollider_ite, AppState.VP_ite, AppState.hue_ite,
      Mesh.translation_ite, Mesh.rotation_ite, Mesh.scale_ite, Mat4.c0_ite,
      Mat4.c1_ite, Mat4.c2_ite, Mat4.c3_ite, Vec4.x_ite, Vec4.y_ite,
      Vec4.z_ite, Vec4.w_ite, ite_self] <;>
    simp only [and_self]

end PointPlane
